import Mathlib

/-!
# Verification of the LogMonitoring ingestion pipeline

A shallow embedding of the repository's ingestion core:

* `src/backend/log_parser.py`   — `LogParser.parse_log` and its helpers
* `src/backend/json_accumulator.py` — `JSONAccumulator` (dedup store)
* `src/backend/log_queue.py`    — `LogQueue._process_logs` (per-item step)
* `src/backend/log_monitor.py`  — `LogFileHandler.read_new_lines`

Modelling conventions:

* Python dicts decoded from JSON are modelled by `JValue` / `JRecord`;
  `d[k]` (which raises `KeyError`) is `jget?` in the `Option` monad,
  `d.get(k, default)` is `jgetD`.  Every `try/except`-guarded function is
  total and returns `Option`, with `none` for "an exception was caught".
* MD5 (`_generate_log_hash`) is modelled as the identity on the joined
  key string `"ts|source|message|level|file_path"`; deduplication only
  compares hashes for equality, so the model is faithful up to MD5
  collisions.
* The filesystem is modelled as the append-only list of
  `(file name, record)` writes; `base_dir` (shared by every partition
  file) is omitted from the names.
* Byte offsets in the file watcher are character offsets over a
  `List Char` file content (exact for ASCII log lines).
-/

/-- A decoded JSON value (the result of Python's `json.loads`). -/
inductive JValue where
  | jstr  : String → JValue
  | jnum  : ℚ → JValue
  | jbool : Bool → JValue
  | jnull : JValue
  | jobj  : List (String × JValue) → JValue

/-- A decoded JSON object, i.e. a Python dict with string keys. -/
abbrev JRecord := List (String × JValue)

/-- `d[k]` as an `Option`: `none` models a raised `KeyError`. -/
def jget? (r : JRecord) (k : String) : Option JValue :=
  (r.find? (fun kv => kv.1 == k)).map (fun kv => kv.2)

/-- `d.get(k, default)`. -/
def jgetD (r : JRecord) (k : String) (d : JValue) : JValue :=
  (jget? r k).getD d

/-- Using a string method (`.lower()`, `.replace(...)`, a regex search)
on a value requires it to be a `str`; on any other value Python raises,
which the caller's `try/except` turns into `none`. -/
def asStr : JValue → Option String
  | .jstr s => some s
  | _ => none

/-- Indexing `v[k]` requires `v` to be a dict. -/
def JValue.asObj : JValue → Option JRecord
  | .jobj f => some f
  | _ => none

/-- Does `n` occur as a contiguous run of `l`, starting at any
position?  Helper for `strContains`. -/
def infixAux (n : List Char) : List Char → Bool
  | [] => n.isEmpty
  | c :: rest => n.isPrefixOf (c :: rest) || infixAux n rest

/-- Python's `needle in haystack` on strings (substring test). -/
def strContains (needle hay : String) : Bool :=
  infixAux needle.toList hay.toList

/-- Python's `str.strip('"')`: drop every leading and trailing `"`. -/
def stripQuotes (s : String) : String :=
  ⟨((s.toList.dropWhile (fun c => c = '"')).reverse.dropWhile
      (fun c => c = '"')).reverse⟩

/-- Python's `str.strip()` (also the whitespace stripping of
`float()`): drop leading and trailing whitespace characters. -/
def trimWS (cs : List Char) : List Char :=
  ((cs.dropWhile Char.isWhitespace).reverse.dropWhile Char.isWhitespace).reverse

/-- Python's `str.lower()` (exact on ASCII, which is all these logs
use). -/
def pyLower (s : String) : String :=
  ⟨s.toList.map Char.toLower⟩

/-- Python's `str.replace(pat, rep)` on character lists: replace every
non-overlapping occurrence, left to right.  The fuel argument (one unit
per examined character) keeps the recursion structural; callers pass
the input length, which suffices for the non-empty patterns used
here. -/
def replaceFuel (pat rep : List Char) : Nat → List Char → List Char
  | 0, l => l
  | _ + 1, [] => []
  | n + 1, c :: rest =>
    if pat.isPrefixOf (c :: rest) then
      rep ++ replaceFuel pat rep n ((c :: rest).drop pat.length)
    else c :: replaceFuel pat rep n rest

/-- Python's `str.replace(pat, rep)`. -/
def pyReplace (s pat rep : String) : String :=
  ⟨replaceFuel pat.toList rep.toList s.toList.length s.toList⟩

/-- Numeric value of a digit list (most significant first). -/
def digitsVal (ds : List Char) : Nat :=
  ds.foldl (fun a c => a * 10 + (c.toNat - 48)) 0

/-- Exponent suffix of a Python float literal, applied to the mantissa.
Helper for `pyFloat?`. -/
def pyFloatExp (base : ℚ) (rest : List Char) : Option ℚ :=
  match rest with
  | [] => some base
  | e :: r =>
    if e = 'e' ∨ e = 'E' then
      let (pos, r1) := match r with
        | '+' :: rr => (true, rr)
        | '-' :: rr => (false, rr)
        | rr => (true, rr)
      let ed := r1.takeWhile Char.isDigit
      if ed.isEmpty ∨ r1.drop ed.length ≠ [] then none
      else some (if pos then base * 10 ^ digitsVal ed
                 else base / 10 ^ digitsVal ed)
    else none

/-- Python's `float(s)` on the decimal fragment
`[ws] [+-]? (digits [. digits*] | . digits+) ([eE] [+-]? digits+)? [ws]`;
`none` models a raised `ValueError`.  (The `inf`/`nan`/underscore forms
accepted by Python never occur in the logs modelled here.) -/
def pyFloat? (s : String) : Option ℚ :=
  let cs := trimWS s.toList
  let (sgn, cs1) : ℚ × List Char := match cs with
    | '+' :: r => (1, r)
    | '-' :: r => (-1, r)
    | r => (1, r)
  let ip := cs1.takeWhile Char.isDigit
  let cs2 := cs1.drop ip.length
  match cs2 with
  | '.' :: r =>
    let fp := r.takeWhile Char.isDigit
    let cs3 := r.drop fp.length
    if ip.isEmpty ∧ fp.isEmpty then none
    else
      pyFloatExp
        (sgn * ((digitsVal ip * 10 ^ fp.length + digitsVal fp : ℕ) : ℚ)
          / ((10 ^ fp.length : ℕ) : ℚ)) cs3
  | _ =>
    if ip.isEmpty then none
    else pyFloatExp (sgn * ((digitsVal ip : ℕ) : ℚ)) cs2

/-- `LogParser._extract_user_id`: first match of the regex
`user_id[=:](\d+)` in `s`, or `"-"`.  Helper scanning one position. -/
def userIdAt (l : List Char) : Option String :=
  if "user_id".toList.isPrefixOf l then
    match l.drop 7 with
    | c :: l3 =>
      if c = '=' ∨ c = ':' then
        let ds := l3.takeWhile Char.isDigit
        if ds.isEmpty then none else some ⟨ds⟩
      else none
    | [] => none
  else none

/-- Scan left to right for the first `user_id[=:](\d+)` match. -/
def findUserId : List Char → Option String
  | [] => none
  | c :: rest =>
    match userIdAt (c :: rest) with
    | some ds => some ds
    | none => findUserId rest

/-- `LogParser._extract_user_id`. -/
def extractUserId (s : String) : String :=
  (findUserId s.toList).getD "-"

/-- `LogParser._extract_error_details`: a `validation error` marker in
the lowered message yields a structured detail dict, otherwise `None`. -/
def extractErrorDetails (s : String) : JValue :=
  if strContains "validation error" (pyLower s) then
    .jobj [("type", .jstr "validation_error"), ("details", .jstr s)]
  else .jnull

mutual
/-- Python's `str()` on a decoded JSON value.  Exact on strings (the
only case the development below ever hashes); the renderings of the
other cases approximate CPython's `str`. -/
def pyStr : JValue → String
  | .jstr s => s
  | .jnum q => if q.den = 1 then toString q.num else toString q
  | .jbool b => if b then "True" else "False"
  | .jnull => "None"
  | .jobj fs => "\x7b" ++ pyStrFields fs ++ "\x7d"

/-- Renders the fields of a dict for `pyStr`. -/
def pyStrFields : List (String × JValue) → String
  | [] => ""
  | [(k, v)] => "'" ++ k ++ "': " ++ pyStr v
  | (k, v) :: rest => "'" ++ k ++ "': " ++ pyStr v ++ ", " ++ pyStrFields rest
end

/-- The dict produced by `LogParser.parse_log` (and consumed by
`JSONAccumulator`).  `Option` fields model keys that are present only
for some categories; `none` = the key is absent from the dict. -/
structure ParsedLog where
  source : String
  log_type : String
  level : Option String
  original_level : Option JValue
  timestamp : Option JValue
  message : Option JValue
  endpoint : Option JValue
  ip : Option JValue
  method : Option JValue
  status_code : Option JValue
  response_time : Option JValue
  user_agent : Option JValue
  user_id : Option JValue
  req_id : Option JValue
  url : Option JValue
  path : Option JValue
  function : Option JValue
  filename : Option JValue
  duration_ms : Option JValue
  error_details : Option JValue
  file_path : String

/-- A default record (all optional keys absent), base for literals. -/
def emptyParsed : ParsedLog where
  source := ""
  log_type := ""
  level := none
  original_level := none
  timestamp := none
  message := none
  endpoint := none
  ip := none
  method := none
  status_code := none
  response_time := none
  user_agent := none
  user_id := none
  req_id := none
  url := none
  path := none
  function := none
  filename := none
  duration_ms := none
  error_details := none
  file_path := ""

/-- A raw line handed to the parser: the `file_path` of the dict built
by the watcher, and the result of `json.loads(content)` (`none` models
a decode failure, which `parse_log` catches). -/
structure RawEntry where
  file_path : String
  decoded : Option JValue

/-- `LogParser._is_request_log` (it ignores its `content` argument). -/
def isRequestLog (fp : String) : Bool :=
  strContains "requestsLogs" fp ||
    (strContains "python_logs" fp && strContains "access-" fp)

/-- `LogParser._is_error_log`: `content.get("level", "").lower()` is in
`["error", "warn", "warning"]`; `none` models the `AttributeError`
raised when a present `level` value is not a string. -/
def isErrorLog (content : JRecord) : Option Bool :=
  match jget? content "level" with
  | none => some false
  | some v => (asStr v).map (fun s =>
      ["error", "warn", "warning"].contains (pyLower s))

/-- `LogParser._parse_request_log`. -/
def parseRequestLog (source : String) (content : JRecord) (fp : String) :
    Option ParsedLog :=
  if source == "node" then do
    let lvl ← jget? content "level"
    let ts ← jget? content "timestamp"
    let msgV ← jget? content "message"
    let msg ← msgV.asObj
    let endpoint ← jget? msg "endpoint"
    let ip ← jget? msg "ip"
    let method ← jget? msg "method"
    let status ← jget? msg "status_code"
    let rtV ← jget? msg "response_time"
    let rtS ← asStr rtV
    let rt ← pyFloat? (pyReplace rtS "ms" "")
    some { emptyParsed with
      source := source, log_type := "request",
      original_level := some lvl, timestamp := some ts,
      endpoint := some endpoint, ip := some ip, method := some method,
      status_code := some status, response_time := some (.jnum rt),
      user_agent := some (jgetD msg "user_agent" (.jstr "-")),
      user_id := some (jgetD msg "user_id" (.jstr "-")),
      req_id := some (jgetD msg "req_id" (.jstr "-")),
      file_path := fp }
  else do
    let lvl ← jget? content "level"
    let ts ← jget? content "timestamp"
    let endpoint ← jget? content "path"
    let method ← jget? content "method"
    let status ← jget? content "status_code"
    let uaS ← asStr (jgetD content "user_agent" (.jstr "-"))
    some { emptyParsed with
      source := source, log_type := "request",
      original_level := some lvl, timestamp := some ts,
      endpoint := some endpoint,
      ip := some (jgetD content "client_ip" (.jstr "-")),
      method := some method, status_code := some status,
      response_time := some (jgetD content "duration_ms" (.jnum 0)),
      user_agent := some (.jstr (stripQuotes uaS)),
      user_id := some (jgetD content "user_id" (.jstr "-")),
      req_id := some (jgetD content "request_id" (.jstr "-")),
      url := some (jgetD content "url" (.jstr "-")),
      file_path := fp }

/-- `LogParser._parse_error_log`. -/
def parseErrorLog (source : String) (content : JRecord) (fp : String) :
    Option ParsedLog :=
  if source == "node" then do
    let lvlS ← asStr (← jget? content "level")
    let ts ← jget? content "timestamp"
    let msgV ← jget? content "message"
    let msgS ← asStr msgV
    some { emptyParsed with
      source := source, log_type := "error", level := some (pyLower lvlS),
      timestamp := some ts, message := some msgV,
      req_id := some (jgetD content "req_id" (.jstr "-")),
      ip := some (jgetD content "ip" (.jstr "-")),
      user_id := some (.jstr (extractUserId msgS)),
      file_path := fp, function := some (.jstr "-"),
      filename := some (.jstr "-"), error_details := some .jnull }
  else do
    let lvlS ← asStr (← jget? content "level")
    let ts ← jget? content "timestamp"
    let msgV ← jget? content "message"
    let msgS ← asStr msgV
    some { emptyParsed with
      source := source, log_type := "error", level := some (pyLower lvlS),
      timestamp := some ts, message := some msgV,
      path := some (jgetD content "path" (.jstr "-")),
      function := some (jgetD content "function" (.jstr "-")),
      filename := some (jgetD content "filename" (.jstr "-")),
      req_id := some (jgetD content "request_id" (.jstr "-")),
      user_id := some (jgetD content "user_id" (.jstr "-")),
      ip := some (jgetD content "client_ip" (.jstr "-")),
      file_path := fp,
      error_details := some (extractErrorDetails msgS) }

/-- `LogParser._parse_info_log`. -/
def parseInfoLog (source : String) (content : JRecord) (fp : String) :
    Option ParsedLog :=
  if source == "node" then do
    let lvlS ← asStr (← jget? content "level")
    let ts ← jget? content "timestamp"
    let msgV ← jget? content "message"
    let msgS ← asStr msgV
    some { emptyParsed with
      source := source, log_type := "info", level := some (pyLower lvlS),
      timestamp := some ts, message := some msgV,
      req_id := some (jgetD content "req_id" (.jstr "-")),
      ip := some (jgetD content "ip" (.jstr "-")),
      user_id := some (.jstr (extractUserId msgS)),
      file_path := fp, function := some (.jstr "-"),
      filename := some (.jstr "-"), duration_ms := some .jnull }
  else do
    let lvlS ← asStr (← jget? content "level")
    let ts ← jget? content "timestamp"
    let msgV ← jget? content "message"
    some { emptyParsed with
      source := source, log_type := "info", level := some (pyLower lvlS),
      timestamp := some ts, message := some msgV,
      path := some (jgetD content "path" (.jstr "-")),
      function := some (jgetD content "function" (.jstr "-")),
      filename := some (jgetD content "filename" (.jstr "-")),
      status_code := some (jgetD content "status_code" .jnull),
      duration_ms := some (jgetD content "duration_ms" .jnull),
      user_id := some (jgetD content "user_id" (.jstr "-")),
      req_id := some (jgetD content "request_id" (.jstr "-")),
      ip := some (jgetD content "client_ip" (.jstr "-")),
      file_path := fp }

/-- `LogParser.parse_log`.  A decode failure, a non-dict JSON value
(every branch immediately indexes or `.get`s the content, raising on a
non-dict), a missing required key, or a malformed field value all raise
inside the `try`, so the function returns `None`. -/
def parseLog (raw : RawEntry) : Option ParsedLog :=
  match raw.decoded with
  | none => none
  | some v =>
    match v.asObj with
    | none => none
    | some content =>
      let source := if strContains "node_logs" raw.file_path
                    then "node" else "python"
      if isRequestLog raw.file_path then
        parseRequestLog source content raw.file_path
      else
        match isErrorLog content with
        | none => none
        | some true => parseErrorLog source content raw.file_path
        | some false => parseInfoLog source content raw.file_path

/-- `JSONAccumulator` state: the process-wide fingerprint set
(`processed_logs`) and the on-disk partitions, modelled as the
append-only list of `(file name, record)` writes. -/
structure AccState where
  processed_logs : List String
  files : List (String × ParsedLog)

/-- The accumulator as constructed by `JSONAccumulator.__init__`:
empty fingerprint set.  (`__init__` never calls
`_load_existing_log_hashes`, so the set starts empty even when
partition files already exist on disk.) -/
def freshAcc (disk : List (String × ParsedLog)) : AccState :=
  { processed_logs := [], files := disk }

/-- `JSONAccumulator._get_file_path` (with the shared `base_dir`
omitted).  For `log_type == "all"` the returned string is the glob
pattern `unified_*_logs_{week}.jsonl`, not the name of a file. -/
def getFilePath (logType week : String) : String :=
  if logType == "all" then "unified_*_logs_" ++ week ++ ".jsonl"
  else "unified_" ++ logType ++ "_logs_" ++ week ++ ".jsonl"

/-- `JSONAccumulator._generate_log_hash`.  MD5 is modelled as the
identity on the joined unique string; dedup only ever compares hashes
for equality, so behaviour is faithful up to MD5 collisions. -/
def generateLogHash (e : ParsedLog) : String :=
  String.intercalate "|"
    [(e.timestamp.map pyStr).getD "", e.source,
     (e.message.map pyStr).getD "", e.level.getD "", e.file_path]

/-- `JSONAccumulator._append_to_file`.  The second component is the
Python return value: a bare `return` on the duplicate path and falling
off the end both return `None`, modelled as `none : Option Bool`. -/
def appendToFile (st : AccState) (filePath : String) (e : ParsedLog) :
    AccState × Option Bool :=
  let h := generateLogHash e
  if h ∈ st.processed_logs then
    (st, none)
  else
    ({ processed_logs := h :: st.processed_logs,
       files := st.files ++ [(filePath, e)] }, none)

/-- Adds the ingestion-time timestamp when the dict has none
(`add_log`'s `if 'timestamp' not in parsed_log` mutation). -/
def defTs (e : ParsedLog) (nowIso : String) : ParsedLog :=
  if e.timestamp.isNone then { e with timestamp := some (.jstr nowIso) }
  else e

/-- The category routing of `JSONAccumulator.add_log`: which unified
file (if any) the record is appended to, decided purely from the
`source` and `file_path` fields. -/
def categoryOf (e : ParsedLog) : Option String :=
  if (e.source == "python" && strContains "access-" e.file_path) ||
     (e.source == "node" && strContains "requestsLogs" e.file_path) then
    some "request"
  else if (e.source == "python" &&
            (strContains "error-" e.file_path ||
             strContains "warning-" e.file_path)) ||
          (e.source == "node" && strContains "errorLogs" e.file_path) then
    some "error"
  else if (e.source == "python" && strContains "info-" e.file_path) ||
          (e.source == "node" && strContains "accessLogs" e.file_path) then
    some "info"
  else none

/-- `JSONAccumulator.add_log`.  `nowWeek` is
`datetime.now().strftime("%Y_W%V")` — the wall-clock ISO week at call
time (`_get_current_week`) — and `nowIso` is `datetime.now().isoformat()`.
An uncategorized record only hits the logging `else` branch.  (The
`if not parsed_log` guard rejects the empty dict, which no `ParsedLog`
models, so it is vacuous here.) -/
def addLog (st : AccState) (e : ParsedLog) (nowWeek nowIso : String) :
    AccState :=
  let e1 := defTs e nowIso
  match categoryOf e1 with
  | some cat => (appendToFile st (getFilePath cat nowWeek) e1).1
  | none => st

/-- `JSONAccumulator._load_existing_log_hashes`: hash every record
already persisted in the partition files.  (JSON round-tripping a dict
preserves its fields, so rehashing the stored record is exact.)  This
method has no call site anywhere in the repository. -/
def loadExistingLogHashes (disk : List (String × ParsedLog)) : List String :=
  disk.foldl (fun acc pf =>
    if acc.contains (generateLogHash pf.2) then acc
    else generateLogHash pf.2 :: acc) []

/-- `glob.glob` on the pattern `_get_file_path(log_type, week)`
returns.  For `"all"` the pattern is `unified_*_logs_{week}.jsonl`:
its single `*` splits it into the fixed 8-character head `unified_`
and the tail `_logs_{week}.jsonl` (`*` matches any run, and week keys
never contain `*` or `/`).  Any other pattern is a plain file name. -/
def matchesPattern (logType week : String) (p : String) : Bool :=
  if logType == "all" then
    "unified_".toList.isPrefixOf p.toList &&
      ("_logs_" ++ week ++ ".jsonl").toList.isSuffixOf (p.toList.drop 8)
  else p == getFilePath logType week

/-- `JSONAccumulator.get_logs`: read every file matching the pattern
for `(logType, week)` and apply the optional level filter
(`if level and log_entry.get("level", "").lower() != level.lower()`;
an empty-string filter is falsy and filters nothing). -/
def getLogs (st : AccState) (logType : String) (level : Option String)
    (week : String) : List ParsedLog :=
  (st.files.filter (fun pf => matchesPattern logType week pf.1)).filterMap
    (fun pf =>
      match level with
      | some lv =>
        if lv != "" && pyLower (pf.2.level.getD "") != pyLower lv then none
        else some pf.2
      | none => some pf.2)

/-- One iteration of the per-item body of `LogQueue._process_logs`:
parse the raw entry; on success hand it to `JSONAccumulator.add_log`
and then — unconditionally — to `_emit_log` (the Socket.IO broadcast,
whose emitted records we collect).  `add_log` may add the `timestamp`
key to the shared dict before `_emit_log` sees it. -/
def processLogEntry (st : AccState) (raw : RawEntry)
    (nowWeek nowIso : String) : AccState × List ParsedLog :=
  match parseLog raw with
  | some p => (addLog st p nowWeek nowIso, [defTs p nowIso])
  | none => (st, [])

/-- Split a chunk of file content on newlines; the non-empty stripped
lines are the ones enqueued (`for line in new_lines: ... if line:`). -/
def emittedLines (cs : List Char) : List (List Char) :=
  ((cs.splitOn '\n').map trimWS).filter (fun l => !l.isEmpty)

/-- `LogFileHandler.read_new_lines` for one change notification:
given the stored cursor `lastPos` (`self.file_positions`) and the
file's current content, returns the enqueued lines and the cursor
after the call.  The rotation reset (`last_position = 0`) is applied
to a local variable; `self.file_positions` is only assigned after a
read, so the `current_size == last_position` early return leaves the
stored cursor unchanged. -/
def readNewLines (lastPos : Nat) (content : List Char) :
    List (List Char) × Nat :=
  let currentSize := content.length
  let pos := if currentSize < lastPos then 0 else lastPos
  if currentSize = pos then ([], lastPos)
  else (emittedLines (content.drop pos), currentSize)

/-- Modelled from the spec: the claim's description of the change
handler, read sequentially — compare size with the stored cursor; on
rotation reset the offset to 0; if the size equals the (possibly
reset) offset do nothing, leaving the cursor at that offset; otherwise
read from the offset and store the post-read position.  Differs from
`readNewLines` only in which cursor the no-read case keeps. -/
def claimedReadNewLines (lastPos : Nat) (content : List Char) :
    List (List Char) × Nat :=
  let currentSize := content.length
  let pos := if currentSize < lastPos then 0 else lastPos
  if currentSize = pos then ([], pos)
  else (emittedLines (content.drop pos), currentSize)

/-! ## Helper lemmas -/

/-- A list is a `Bool`-level prefix of itself followed by anything. -/
theorem isPrefixOf_append_self (l m : List Char) :
    l.isPrefixOf (l ++ m) = true := by
  induction l with
  | nil => simp [List.isPrefixOf]
  | cons a as ih => simp [List.isPrefixOf, ih]

/-- A list is a `Bool`-level suffix of anything followed by itself. -/
theorem isSuffixOf_append_self (l m : List Char) :
    m.isSuffixOf (l ++ m) = true := by
  simp [List.isSuffixOf, List.reverse_append, isPrefixOf_append_self]

/-- `defTs` only touches the `timestamp` key. -/
theorem defTs_source (e : ParsedLog) (n : String) :
    (defTs e n).source = e.source := by
  unfold defTs; split <;> rfl

/-- `defTs` only touches the `timestamp` key. -/
theorem defTs_file_path (e : ParsedLog) (n : String) :
    (defTs e n).file_path = e.file_path := by
  unfold defTs; split <;> rfl

/-- Category routing only reads `source` and `file_path`, which
`defTs` preserves. -/
theorem categoryOf_defTs (e : ParsedLog) (n : String) :
    categoryOf (defTs e n) = categoryOf e := by
  unfold defTs; split <;> rfl

/-- Every successful `_parse_request_log` carries `log_type "request"`. -/
theorem parseRequestLog_log_type {s : String} {c : JRecord} {f : String}
    {p : ParsedLog} (h : parseRequestLog s c f = some p) :
    p.log_type = "request" := by
  unfold parseRequestLog at h
  split at h <;>
    (simp only [bind, Option.bind_eq_some, Option.some.injEq] at h
     repeat obtain ⟨_, _, h⟩ := h
     try subst h
     rfl)

/-- Every successful `_parse_error_log` carries `log_type "error"`. -/
theorem parseErrorLog_log_type {s : String} {c : JRecord} {f : String}
    {p : ParsedLog} (h : parseErrorLog s c f = some p) :
    p.log_type = "error" := by
  unfold parseErrorLog at h
  split at h <;>
    (simp only [bind, Option.bind_eq_some, Option.some.injEq] at h
     repeat obtain ⟨_, _, h⟩ := h
     try subst h
     rfl)

/-- Every successful `_parse_info_log` carries `log_type "info"`. -/
theorem parseInfoLog_log_type {s : String} {c : JRecord} {f : String}
    {p : ParsedLog} (h : parseInfoLog s c f = some p) :
    p.log_type = "info" := by
  unfold parseInfoLog at h
  split at h <;>
    (simp only [bind, Option.bind_eq_some, Option.some.injEq] at h
     repeat obtain ⟨_, _, h⟩ := h
     try subst h
     rfl)

/-- The week-`all` glob pattern matches every name of the shape
`unified_<x>_logs_<week>.jsonl`. -/
theorem matchesPattern_all_shape (x w : String) :
    matchesPattern "all" w ("unified_" ++ x ++ "_logs_" ++ w ++ ".jsonl")
      = true := by
  unfold matchesPattern
  rw [if_pos (by rfl)]
  rw [Bool.and_eq_true]
  constructor
  · simp [String.toList, String.data_append, List.append_assoc,
      isPrefixOf_append_self]
  · have h8 : ("unified_".data).length = 8 := rfl
    simp only [String.toList, String.data_append, List.append_assoc]
    rw [← h8, List.drop_left]
    exact isSuffixOf_append_self _ _

/-- Every partition file name produced by `_get_file_path` matches the
same week's `all` pattern (for `"all"` itself, the pattern trivially
matches its own shape). -/
theorem matchesPattern_all_getFilePath (cat w : String) :
    matchesPattern "all" w (getFilePath cat w) = true := by
  unfold getFilePath
  split
  · have hsh : "unified_*_logs_" ++ w ++ ".jsonl"
        = "unified_" ++ "*" ++ "_logs_" ++ w ++ ".jsonl" := rfl
    rw [hsh]
    exact matchesPattern_all_shape "*" w
  · exact matchesPattern_all_shape cat w

/-! ## Claim C1 — restart deduplication -/

/-- A python access-log record as stored by the pipeline. -/
def c1log : ParsedLog := { emptyParsed with
  source := "python", log_type := "request",
  original_level := some (.jstr "INFO"),
  timestamp := some (.jstr "2025-07-01T10:00:00"),
  endpoint := some (.jstr "/api/users"), ip := some (.jstr "1.2.3.4"),
  method := some (.jstr "GET"), status_code := some (.jnum 200),
  response_time := some (.jnum 12),
  user_agent := some (.jstr "curl"), user_id := some (.jstr "-"),
  req_id := some (.jstr "-"), url := some (.jstr "-"),
  file_path := "python_logs/access-2025-07-01.log" }

/-- C1: the claim says `initialize()` runs before the live phase and
reseeds the fingerprint set, making re-ingestion across a restart
store each occurrence once.  In the code `_load_existing_log_hashes`
has no call site (neither `__init__` nor the `__main__` startup in
`app.py` invokes it), so a restarted process begins with an empty
fingerprint set: re-ingesting the same line appends the event a second
time (second conjunct).  The third conjunct shows the claimed behaviour
would hold had the loader been run — exactly one stored copy. -/
theorem C1_restart_reintroduces_duplicates :
    (addLog (freshAcc []) c1log "2025_W27" "2025-07-01T10:00:05").files =
      [("unified_request_logs_2025_W27.jsonl", c1log)] ∧
    (addLog (freshAcc [("unified_request_logs_2025_W27.jsonl", c1log)])
        c1log "2025_W27" "2025-07-02T09:00:00").files =
      [("unified_request_logs_2025_W27.jsonl", c1log),
       ("unified_request_logs_2025_W27.jsonl", c1log)] ∧
    (addLog
        ⟨loadExistingLogHashes [("unified_request_logs_2025_W27.jsonl", c1log)],
         [("unified_request_logs_2025_W27.jsonl", c1log)]⟩
        c1log "2025_W27" "2025-07-02T09:00:00").files =
      [("unified_request_logs_2025_W27.jsonl", c1log)] :=
  ⟨rfl, rfl, rfl⟩

/-! ## Claim C2 — append's result and side effects -/

/-- A python error-log record. -/
def c2log : ParsedLog := { emptyParsed with
  source := "python", log_type := "error", level := some "error",
  timestamp := some (.jstr "2025-07-01T10:00:01"),
  message := some (.jstr "db down"),
  file_path := "python_logs/error-2025-07-01.log" }

/-- C2 (counterexample): the claim says `append` returns the boolean
`accepted` — `true` on a fresh event, `false` on a duplicate.
`_append_to_file` returns `None` on both paths (a bare `return` on the
duplicate path, falling off the end otherwise), so the result is never
`True` nor `False`. -/
theorem C2_append_never_returns_bool :
    (appendToFile (freshAcc []) (getFilePath "error" "2025_W27") c2log).2
      = none ∧
    (appendToFile ⟨[generateLogHash c2log], []⟩
        (getFilePath "error" "2025_W27") c2log).2 = none ∧
    (none : Option Bool) ≠ some true ∧ (none : Option Bool) ≠ some false :=
  ⟨rfl, rfl, by decide, by decide⟩

/-- C2 (amended): `_append_to_file` computes the fingerprint; if it is
already recorded the call has no side effect (state unchanged, the skip
only logged); otherwise it appends the record to the given file and
records the fingerprint.  In both cases the Python return value is
`None`, so acceptance is not observable from the result. -/
theorem C2_append_behavior (st : AccState) (fp : String) (e : ParsedLog) :
    (generateLogHash e ∈ st.processed_logs →
      appendToFile st fp e = (st, none)) ∧
    (generateLogHash e ∉ st.processed_logs →
      (appendToFile st fp e).1.files = st.files ++ [(fp, e)] ∧
      generateLogHash e ∈ (appendToFile st fp e).1.processed_logs ∧
      (appendToFile st fp e).2 = none) := by
  constructor
  · intro h; simp [appendToFile, h]
  · intro h; simp [appendToFile, h]

/-- C2 (witness): `C2_append_behavior` at a duplicate state and at the
empty state. -/
theorem C2_append_behavior_witness :
    appendToFile ⟨[generateLogHash c2log], []⟩ "f" c2log =
      (⟨[generateLogHash c2log], []⟩, none) ∧
    ((appendToFile (freshAcc []) "f" c2log).1.files = [] ++ [("f", c2log)] ∧
     generateLogHash c2log ∈
       (appendToFile (freshAcc []) "f" c2log).1.processed_logs ∧
     (appendToFile (freshAcc []) "f" c2log).2 = none) :=
  ⟨(C2_append_behavior ⟨[generateLogHash c2log], []⟩ "f" c2log).1
     (List.mem_singleton.mpr rfl),
   (C2_append_behavior (freshAcc []) "f" c2log).2 (List.not_mem_nil _)⟩

/-! ## Claim C3 — which week an event is filed under -/

/-- A python access-log record whose own timestamp lies in ISO week
`2025_W27`. -/
def c3log : ParsedLog := { emptyParsed with
  source := "python", log_type := "request",
  original_level := some (.jstr "INFO"),
  timestamp := some (.jstr "2025-07-01T10:00:00"),
  endpoint := some (.jstr "/api/items"), method := some (.jstr "GET"),
  status_code := some (.jnum 200), response_time := some (.jnum 3),
  file_path := "python_logs/access-2025-07-01.log" }

/-- C3 (counterexample): the claim says the partition week is computed
from the Event's own timestamp, so two ingestions of the same
timestamped event land in the same week partition regardless of when
they run.  `add_log` instead uses `_get_current_week()` — the
wall-clock week: the same record ingested while the clock reads week
`2025_W27` and again while it reads `2025_W40` is filed under two
different week partitions (and under `2025_W40` even though its own
timestamp lies in week 27). -/
theorem C3_week_is_wall_clock :
    (addLog (freshAcc []) c3log "2025_W27" "t").files.map Prod.fst =
      ["unified_request_logs_2025_W27.jsonl"] ∧
    (addLog (freshAcc []) c3log "2025_W40" "t").files.map Prod.fst =
      ["unified_request_logs_2025_W40.jsonl"] ∧
    "unified_request_logs_2025_W27.jsonl" ≠
      "unified_request_logs_2025_W40.jsonl" :=
  ⟨rfl, rfl, by decide⟩

/-- C3 (amended): the partition file an accepted event is written to is
`unified_<category>_logs_<nowWeek>.jsonl` where `nowWeek` is the
wall-clock ISO week at write time; the event's own `timestamp` field
has no influence on the chosen partition (here: two arbitrary
timestamp values yield the same single written path). -/
theorem C3_partition_ignores_timestamp (st : AccState) (e : ParsedLog)
    (w n : String) (t1 t2 : Option JValue) (cat : String)
    (hcat : categoryOf e = some cat)
    (h1 : generateLogHash (defTs { e with timestamp := t1 } n) ∉
            st.processed_logs)
    (h2 : generateLogHash (defTs { e with timestamp := t2 } n) ∉
            st.processed_logs) :
    ((addLog st { e with timestamp := t1 } w n).files.drop
        st.files.length).map Prod.fst = [getFilePath cat w] ∧
    ((addLog st { e with timestamp := t2 } w n).files.drop
        st.files.length).map Prod.fst = [getFilePath cat w] := by
  have e1 : categoryOf { e with timestamp := t1 } = categoryOf e := rfl
  have e2 : categoryOf { e with timestamp := t2 } = categoryOf e := rfl
  constructor
  · simp [addLog, categoryOf_defTs, e1, hcat, appendToFile, h1,
      List.drop_left]
  · simp [addLog, categoryOf_defTs, e2, hcat, appendToFile, h2,
      List.drop_left]

/-- C3 (witness): `C3_partition_ignores_timestamp` at the empty store,
`c3log` with two concrete timestamps, and wall-clock week `2025_W40`. -/
theorem C3_partition_ignores_timestamp_witness :
    ((addLog (freshAcc [])
        { c3log with timestamp := some (.jstr "2025-07-01T10:00:00") }
        "2025_W40" "t").files.drop (freshAcc []).files.length).map Prod.fst
      = [getFilePath "request" "2025_W40"] ∧
    ((addLog (freshAcc [])
        { c3log with timestamp := some (.jstr "2024-01-01T00:00:00") }
        "2025_W40" "t").files.drop (freshAcc []).files.length).map Prod.fst
      = [getFilePath "request" "2025_W40"] :=
  C3_partition_ignores_timestamp (freshAcc []) c3log "2025_W40" "t"
    (some (.jstr "2025-07-01T10:00:00")) (some (.jstr "2024-01-01T00:00:00"))
    "request" rfl (List.not_mem_nil _) (List.not_mem_nil _)

/-! ## Claim C4 — how many partition files receive an event -/

/-- A node request record. -/
def c4log : ParsedLog := { emptyParsed with
  source := "node", log_type := "request",
  original_level := some (.jstr "info"),
  timestamp := some (.jstr "2025-07-02T11:00:00"),
  endpoint := some (.jstr "/login"), ip := some (.jstr "5.6.7.8"),
  method := some (.jstr "POST"), status_code := some (.jnum 201),
  response_time := some (.jnum 45),
  file_path := "node_logs/requestsLogs/2025-07-02.log" }

/-- C4 (counterexample): the claim says every accepted event is written
to exactly two partition files — its category file and the
all-categories file.  `add_log` performs exactly one `_append_to_file`
call: the accepted event lands in a single file (the category+week
partition); no separate `all` file exists on disk. -/
theorem C4_single_write :
    (addLog (freshAcc []) c4log "2025_W27" "t").files =
      [("unified_request_logs_2025_W27.jsonl", c4log)] ∧
    ((addLog (freshAcc []) c4log "2025_W27" "t").files.map Prod.fst).length
      = 1 :=
  ⟨rfl, rfl⟩

/-- C4 (amended): an accepted categorized event is written to exactly
one partition file, `unified_<category>_logs_<week>.jsonl`; the
"all-categories partition" exists only as the read-time glob pattern
`unified_*_logs_<week>.jsonl`, which that one file matches, so the
event is returned by `get_logs("all", week)`. -/
theorem C4_one_file_and_all_glob (st : AccState) (e : ParsedLog)
    (w n cat : String) (hcat : categoryOf e = some cat)
    (hfresh : generateLogHash (defTs e n) ∉ st.processed_logs) :
    (addLog st e w n).files = st.files ++ [(getFilePath cat w, defTs e n)] ∧
    matchesPattern "all" w (getFilePath cat w) = true ∧
    defTs e n ∈ getLogs (addLog st e w n) "all" none w := by
  have h1 : (addLog st e w n).files =
      st.files ++ [(getFilePath cat w, defTs e n)] := by
    simp [addLog, categoryOf_defTs, hcat, appendToFile, hfresh]
  refine ⟨h1, matchesPattern_all_getFilePath cat w, ?_⟩
  simp only [getLogs, h1]
  exact List.mem_filterMap.mpr
    ⟨(getFilePath cat w, defTs e n),
     List.mem_filter.mpr
       ⟨List.mem_append_right _ (List.mem_singleton.mpr rfl),
        matchesPattern_all_getFilePath cat w⟩,
     rfl⟩

/-- C4 (witness): `C4_one_file_and_all_glob` at the empty store and
`c4log`. -/
theorem C4_one_file_and_all_glob_witness :
    (addLog (freshAcc []) c4log "2025_W27" "t").files =
      (freshAcc []).files ++
        [(getFilePath "request" "2025_W27", defTs c4log "t")] ∧
    matchesPattern "all" "2025_W27" (getFilePath "request" "2025_W27")
      = true ∧
    defTs c4log "t" ∈
      getLogs (addLog (freshAcc []) c4log "2025_W27" "t") "all" none
        "2025_W27" :=
  C4_one_file_and_all_glob (freshAcc []) c4log "2025_W27" "t" "request"
    rfl (List.not_mem_nil _)

/-! ## Claim C5 — category routing -/

/-- A structured record carrying both `status_code` and `method`. -/
def c5rec : JRecord :=
  [("level", .jstr "info"), ("timestamp", .jstr "2025-07-01T10:00:00"),
   ("message", .jstr "handled request"), ("status_code", .jnum 500),
   ("method", .jstr "GET")]

/-- The same record arriving from a python file whose path carries no
request-log marker. -/
def c5raw : RawEntry := ⟨"python_logs/app-2025-07-01.log", some (.jobj c5rec)⟩

/-- C5 (counterexample): the claim routes any record carrying
`status_code` and `method` to category `request`.  `_is_request_log`
never inspects the record's fields — only the file path — so this
record (which has both fields but arrives from a path without a
request marker) is parsed with `log_type = "info"`, not `"request"`. -/
theorem C5_fields_do_not_route :
    (jget? c5rec "status_code").isSome = true ∧
    (jget? c5rec "method").isSome = true ∧
    (parseLog c5raw).map ParsedLog.log_type = some "info" :=
  ⟨rfl, rfl, rfl⟩

/-- C5 (amended): classification is by file path and severity only: a
successful parse is `request` iff the path contains `requestsLogs` or
both `python_logs` and `access-` (`_is_request_log`); otherwise it is
`error` iff the record's `level` string lowers to error/warn/warning
(`_is_error_log`), and `info` otherwise.  The record's `status_code` /
`method` fields play no role. -/
theorem C5_routing_by_path (fp : String) (c : JRecord) (p : ParsedLog)
    (h : parseLog ⟨fp, some (.jobj c)⟩ = some p) :
    p.log_type = if isRequestLog fp then "request"
                 else if isErrorLog c = some true then "error"
                 else "info" := by
  simp only [parseLog, JValue.asObj] at h
  cases hr : isRequestLog fp with
  | true =>
    rw [hr] at h
    simp only [if_true, hr]
    exact parseRequestLog_log_type (by simpa using h)
  | false =>
    rw [hr] at h
    simp only [Bool.false_eq_true, if_false] at h ⊢
    cases herr : isErrorLog c with
    | none => rw [herr] at h; simp at h
    | some b =>
      rw [herr] at h
      cases b with
      | true =>
        simp only [if_pos rfl]
        exact parseErrorLog_log_type (by simpa using h)
      | false =>
        rw [if_neg (by simp)]
        exact parseInfoLog_log_type (by simpa using h)

/-- A python warning record (for the witness). -/
def c5wrec : JRecord :=
  [("level", .jstr "WARN"), ("timestamp", .jstr "2025-07-01T10:00:02"),
   ("message", .jstr "disk almost full")]

/-- The warning record's raw entry. -/
def c5wraw : RawEntry :=
  ⟨"python_logs/warning-2025-07-01.log", some (.jobj c5wrec)⟩

/-- The parse result of `c5wraw`. -/
def c5wlog : ParsedLog := { emptyParsed with
  source := "python", log_type := "error", level := some "warn",
  timestamp := some (.jstr "2025-07-01T10:00:02"),
  message := some (.jstr "disk almost full"),
  path := some (.jstr "-"), function := some (.jstr "-"),
  filename := some (.jstr "-"), req_id := some (.jstr "-"),
  user_id := some (.jstr "-"), ip := some (.jstr "-"),
  error_details := some .jnull,
  file_path := "python_logs/warning-2025-07-01.log" }

/-- C5 (witness): `C5_routing_by_path` at the concrete warning
record. -/
theorem C5_routing_by_path_witness :
    c5wlog.log_type =
      if isRequestLog "python_logs/warning-2025-07-01.log" then "request"
      else if isErrorLog c5wrec = some true then "error"
      else "info" :=
  C5_routing_by_path "python_logs/warning-2025-07-01.log" c5wrec c5wlog rfl

/-! ## Claim C6 — are duplicates broadcast? -/

/-- A node error record. -/
def c6rec : JRecord :=
  [("level", .jstr "error"), ("timestamp", .jstr "2025-07-03T08:00:00"),
   ("message", .jstr "boom")]

/-- The node error record's raw entry. -/
def c6raw : RawEntry :=
  ⟨"node_logs/errorLogs/2025-07-03.log", some (.jobj c6rec)⟩

/-- The parse result of `c6raw`. -/
def c6log : ParsedLog := { emptyParsed with
  source := "node", log_type := "error", level := some "error",
  timestamp := some (.jstr "2025-07-03T08:00:00"),
  message := some (.jstr "boom"),
  req_id := some (.jstr "-"), ip := some (.jstr "-"),
  user_id := some (.jstr "-"), function := some (.jstr "-"),
  filename := some (.jstr "-"), error_details := some .jnull,
  file_path := "node_logs/errorLogs/2025-07-03.log" }

/-- C6 (counterexample): the claim says an Event whose fingerprint is
already present is never broadcast.  The consuming loop calls
`_emit_log(parsed_log)` for every successfully parsed entry —
`add_log` returns `None`, so there is nothing to gate on: here the
fingerprint is already recorded, the store is left unchanged, yet the
record is still emitted. -/
theorem C6_duplicate_still_broadcast :
    parseLog c6raw = some c6log ∧
    processLogEntry ⟨[generateLogHash c6log], []⟩ c6raw "2025_W27" "t" =
      (⟨[generateLogHash c6log], []⟩, [c6log]) :=
  ⟨rfl, rfl⟩

/-- C6 (amended): every successfully parsed entry is handed to the
Publisher, independently of whether the Store accepted it; when the
fingerprint is already present, the store is unchanged and the
duplicate is re-broadcast. -/
theorem C6_emit_independent_of_acceptance (st : AccState) (raw : RawEntry)
    (w n : String) (p : ParsedLog) (h : parseLog raw = some p) :
    (processLogEntry st raw w n).2 = [defTs p n] ∧
    (generateLogHash (defTs p n) ∈ st.processed_logs →
      processLogEntry st raw w n = (st, [defTs p n])) := by
  constructor
  · simp [processLogEntry, h]
  · intro hd
    simp only [processLogEntry, h]
    have hnop : addLog st p w n = st := by
      unfold addLog
      cases hc : categoryOf (defTs p n) <;> simp [hc, appendToFile, hd]
    rw [hnop]

/-- A node access (info) record for the witness. -/
def c6wrec : JRecord :=
  [("level", .jstr "info"), ("timestamp", .jstr "2025-07-03T09:00:00"),
   ("message", .jstr "started")]

/-- The info record's raw entry. -/
def c6wraw : RawEntry :=
  ⟨"node_logs/accessLogs/2025-07-03.log", some (.jobj c6wrec)⟩

/-- The parse result of `c6wraw`. -/
def c6wlog : ParsedLog := { emptyParsed with
  source := "node", log_type := "info", level := some "info",
  timestamp := some (.jstr "2025-07-03T09:00:00"),
  message := some (.jstr "started"),
  req_id := some (.jstr "-"), ip := some (.jstr "-"),
  user_id := some (.jstr "-"), function := some (.jstr "-"),
  filename := some (.jstr "-"), duration_ms := some .jnull,
  file_path := "node_logs/accessLogs/2025-07-03.log" }

/-- C6 (witness): `C6_emit_independent_of_acceptance` at a state that
already holds the record's fingerprint. -/
theorem C6_emit_independent_of_acceptance_witness :
    (processLogEntry ⟨[generateLogHash (defTs c6wlog "t")], []⟩ c6wraw
        "2025_W27" "t").2 = [defTs c6wlog "t"] ∧
    processLogEntry ⟨[generateLogHash (defTs c6wlog "t")], []⟩ c6wraw
        "2025_W27" "t" =
      (⟨[generateLogHash (defTs c6wlog "t")], []⟩, [defTs c6wlog "t"]) :=
  ⟨(C6_emit_independent_of_acceptance
      ⟨[generateLogHash (defTs c6wlog "t")], []⟩ c6wraw "2025_W27" "t"
      c6wlog rfl).1,
   (C6_emit_independent_of_acceptance
      ⟨[generateLogHash (defTs c6wlog "t")], []⟩ c6wraw "2025_W27" "t"
      c6wlog rfl).2 (List.mem_singleton.mpr rfl)⟩

/-! ## Claim C7 — change-notification reads and rotation -/

/-- C7 (counterexample): the claim says that when the current size is
smaller than the stored cursor offset, the watcher resets the offset
to 0.  The reset is applied to a local variable only, and
`self.file_positions` is assigned only after a read: when a watched
file with stored offset 5 is truncated to empty, the call emits
nothing and the stored cursor remains 5 (the claim's description,
`claimedReadNewLines`, leaves it at 0). -/
theorem C7_truncation_to_empty_keeps_cursor :
    readNewLines 5 [] = ([], 5) ∧
    claimedReadNewLines 5 [] = ([], 0) ∧ (5 : Nat) ≠ 0 :=
  ⟨rfl, rfl, by decide⟩

/-- C7 (amended): on a change notification, the watcher compares the
current size with the stored offset.  If `size < offset` (rotation)
the read position is reset to 0 for this call and exactly the stripped
non-empty lines of the whole current content are emitted — none
replayed, none skipped — but the stored cursor is only updated (to the
post-read position) when a read actually happens: a truncation to an
empty file leaves the stored cursor unchanged rather than 0.  If
`size = offset` nothing is emitted and the cursor is unchanged;
otherwise the lines from `offset` to the end are emitted and the
cursor becomes the post-read position. -/
theorem C7_read_new_lines_cases (lastPos : Nat) (content : List Char) :
    (content.length < lastPos →
      (readNewLines lastPos content).1 = emittedLines content ∧
      (readNewLines lastPos content).2 =
        (if content.length = 0 then lastPos else content.length)) ∧
    (content.length = lastPos →
      readNewLines lastPos content = ([], lastPos)) ∧
    (lastPos < content.length →
      readNewLines lastPos content =
        (emittedLines (content.drop lastPos), content.length)) := by
  refine ⟨?_, ?_, ?_⟩
  · intro h
    by_cases hz : content.length = 0
    · have hnil : content = [] := List.length_eq_zero.mp hz
      subst hnil
      simp only [List.length_nil] at h
      constructor <;> simp [readNewLines, emittedLines, trimWS, h]
    · constructor <;> simp [readNewLines, h, hz]
  · intro h
    simp [readNewLines, h]
  · intro h
    have h1 : ¬ content.length < lastPos := by omega
    have h2 : ¬ content.length = lastPos := by omega
    simp [readNewLines, h1, h2]

/-- C7 (witness): `C7_read_new_lines_cases` on a rotation — stored
offset 5, truncated-and-rewritten content `"ab\nc"` of length 4. -/
theorem C7_read_new_lines_cases_witness :
    (readNewLines 5 "ab\nc".toList).1 = emittedLines "ab\nc".toList ∧
    (readNewLines 5 "ab\nc".toList).2 =
      (if ("ab\nc".toList).length = 0 then 5 else ("ab\nc".toList).length) :=
  (C7_read_new_lines_cases 5 "ab\nc".toList).1 (by decide)

/-! ## Claim C8 — unparseable durations -/

/-- C8 (amended, part of): for a python-source request record the
`duration_ms` key is read with `content.get("duration_ms", 0)`, so a
missing duration degrades to the default `0`; for a node request
record, `float(msg["response_time"].replace("ms", ""))` raises on a
non-numeric string and the record is dropped (`parse_log` returns
`None`), not defaulted. -/
theorem C8_duration_handling
    (c : JRecord) (fp : String)
    (hreq : isRequestLog fp = true)
    (hnode : strContains "node_logs" fp = false)
    (hdur : jget? c "duration_ms" = none)
    (lvl ts ep m sc : JValue) (ua : String)
    (hl : jget? c "level" = some lvl) (ht : jget? c "timestamp" = some ts)
    (hp : jget? c "path" = some ep) (hm : jget? c "method" = some m)
    (hs : jget? c "status_code" = some sc)
    (hua : asStr (jgetD c "user_agent" (.jstr "-")) = some ua)
    (c2 : JRecord) (fp2 : String) (m2 : JRecord) (rts : String)
    (lvl2 ts2 ep2 ip2 me2 sc2 : JValue)
    (hreq2 : isRequestLog fp2 = true)
    (hnode2 : strContains "node_logs" fp2 = true)
    (hl2 : jget? c2 "level" = some lvl2)
    (ht2 : jget? c2 "timestamp" = some ts2)
    (hmsg2 : jget? c2 "message" = some (.jobj m2))
    (hep2 : jget? m2 "endpoint" = some ep2)
    (hip2 : jget? m2 "ip" = some ip2)
    (hme2 : jget? m2 "method" = some me2)
    (hsc2 : jget? m2 "status_code" = some sc2)
    (hrt2 : jget? m2 "response_time" = some (.jstr rts))
    (hbad : pyFloat? (pyReplace rts "ms" "") = none) :
    (∃ p, parseLog ⟨fp, some (.jobj c)⟩ = some p ∧
       p.response_time = some (.jnum 0)) ∧
    parseLog ⟨fp2, some (.jobj c2)⟩ = none := by
  constructor
  · have hrun : parseLog ⟨fp, some (.jobj c)⟩ =
        some { emptyParsed with
          source := "python", log_type := "request",
          original_level := some lvl, timestamp := some ts,
          endpoint := some ep,
          ip := some (jgetD c "client_ip" (.jstr "-")),
          method := some m, status_code := some sc,
          response_time := some (jgetD c "duration_ms" (.jnum 0)),
          user_agent := some (.jstr (stripQuotes ua)),
          user_id := some (jgetD c "user_id" (.jstr "-")),
          req_id := some (jgetD c "request_id" (.jstr "-")),
          url := some (jgetD c "url" (.jstr "-")),
          file_path := fp } := by
      simp [parseLog, JValue.asObj, hreq, hnode, parseRequestLog, bind,
        hl, ht, hp, hm, hs, hua]
    exact ⟨_, hrun, by simp [jgetD, hdur]⟩
  · simp [parseLog, JValue.asObj, hreq2, hnode2, parseRequestLog, bind,
      hl2, ht2, hmsg2, hep2, hip2, hme2, hsc2, hrt2, asStr, hbad]

/-- The message dict of a node request whose `response_time` string is
non-numeric. -/
def c8msg : JRecord :=
  [("endpoint", .jstr "/y"), ("ip", .jstr "9.9.9.9"),
   ("method", .jstr "POST"), ("status_code", .jnum 500),
   ("response_time", .jstr "fastms")]

/-- The node request record wrapping `c8msg`. -/
def c8rec : JRecord :=
  [("level", .jstr "info"), ("timestamp", .jstr "2025-07-05T10:00:00"),
   ("message", .jobj c8msg)]

/-- The node raw entry carrying `c8rec`. -/
def c8raw : RawEntry := ⟨"node_logs/requestsLogs/x.log", some (.jobj c8rec)⟩

/-- C8 (counterexample): the claim says a request record whose duration
string is unparseable is kept with duration `0`.  This node request
record has `response_time = "fastms"`; `float("fast")` raises and
`parse_log` returns `None` — the record is dropped, not defaulted. -/
theorem C8_unparseable_duration_drops_record :
    jget? c8msg "response_time" = some (.jstr "fastms") ∧
    parseLog c8raw = none :=
  ⟨rfl, rfl⟩

/-- A python request record without a `duration_ms` key. -/
def c8pyrec : JRecord :=
  [("level", .jstr "INFO"), ("timestamp", .jstr "2025-07-05T11:00:00"),
   ("path", .jstr "/x"), ("method", .jstr "GET"),
   ("status_code", .jnum 200)]

/-- C8 (witness): `C8_duration_handling` at the concrete python record
without `duration_ms` and the concrete node record with
`response_time = "fastms"`. -/
theorem C8_duration_handling_witness :
    (∃ p, parseLog ⟨"python_logs/access-x.log", some (.jobj c8pyrec)⟩
        = some p ∧ p.response_time = some (.jnum 0)) ∧
    parseLog ⟨"node_logs/requestsLogs/x.log", some (.jobj c8rec)⟩ = none :=
  C8_duration_handling c8pyrec "python_logs/access-x.log" rfl rfl rfl
    (.jstr "INFO") (.jstr "2025-07-05T11:00:00") (.jstr "/x") (.jstr "GET")
    (.jnum 200) "-" rfl rfl rfl rfl rfl rfl
    c8rec "node_logs/requestsLogs/x.log" c8msg "fastms"
    (.jstr "info") (.jstr "2025-07-05T10:00:00") (.jstr "/y")
    (.jstr "9.9.9.9") (.jstr "POST") (.jnum 500)
    rfl rfl rfl rfl rfl rfl rfl rfl rfl rfl rfl

/-! ## Claim C9 — records without a severity field -/

/-- A structured record with no `level` key. -/
def c9rec : JRecord :=
  [("message", .jstr "plain note"), ("timestamp", .jstr "2025-07-04T12:00:00")]

/-- The raw entry carrying `c9rec` from a python info file. -/
def c9raw : RawEntry := ⟨"python_logs/info-2025-07-04.log", some (.jobj c9rec)⟩

/-- C9 (counterexample): the claim says a structured record without a
severity field yields an Event with `level` defaulted to `info`.
`_is_error_log` uses `.get` and treats the absent key as non-error, but
`_parse_info_log` then indexes `content["level"]` directly: the
`KeyError` is caught by `parse_log`, which returns `None` — the record
is dropped, no Event is produced. -/
theorem C9_missing_level_returns_none :
    jget? c9rec "level" = none ∧ parseLog c9raw = none :=
  ⟨rfl, rfl⟩

/-- C9 (amended): every structured record lacking a `level` key that is
not request-path-shaped is dropped by `parse_log` (the `KeyError`
raised by `_parse_info_log`'s direct `content["level"]` access is
caught and `None` returned); the `info` defaulting described by the
spec exists only in the legacy `parse_node_log`/`parse_python_log`
helpers, which the live pipeline never calls. -/
theorem C9_missing_level_drops (fp : String) (c : JRecord)
    (hlvl : jget? c "level" = none) (hreq : isRequestLog fp = false) :
    parseLog ⟨fp, some (.jobj c)⟩ = none := by
  simp [parseLog, JValue.asObj, hreq, isErrorLog, hlvl, parseInfoLog, bind]

/-- C9 (witness): `C9_missing_level_drops` at a concrete node record
with no `level` key. -/
theorem C9_missing_level_drops_witness :
    parseLog ⟨"node_logs/other/x.log",
      some (.jobj [("message", .jstr "m")])⟩ = none :=
  C9_missing_level_drops "node_logs/other/x.log"
    [("message", .jstr "m")] rfl rfl

/-! ## Claim C10 — uncategorized events are silently dropped -/

/-- C10: a successfully parsed record whose `(source, file_path)` pair
matches none of the three routing patterns of `add_log` (python
`access-` / `error-` / `warning-` / `info-` files, node
`requestsLogs` / `errorLogs` / `accessLogs` directories) is written to
no partition file: `add_log` reaches only the logging `else` branch
and the store is unchanged — the event is silently dropped with no
error raised (the function is total). -/
theorem C10_uncategorized_silently_dropped (st : AccState) (e : ParsedLog)
    (w n : String)
    (h1 : ((e.source == "python" && strContains "access-" e.file_path) ||
           (e.source == "node" && strContains "requestsLogs" e.file_path))
            = false)
    (h2 : ((e.source == "python" &&
             (strContains "error-" e.file_path ||
              strContains "warning-" e.file_path)) ||
           (e.source == "node" && strContains "errorLogs" e.file_path))
            = false)
    (h3 : ((e.source == "python" && strContains "info-" e.file_path) ||
           (e.source == "node" && strContains "accessLogs" e.file_path))
            = false) :
    addLog st e w n = st := by
  have hcat : categoryOf e = none := by
    simp only [categoryOf, h1, h2, h3]
    rfl
  simp [addLog, categoryOf_defTs, hcat]

/-- A parsed record from a source that matches no routing pattern. -/
def c10log : ParsedLog := { emptyParsed with
  source := "generic", log_type := "unknown", level := some "info",
  timestamp := some (.jstr "2025-07-04T12:00:00"),
  message := some (.jstr "free-form text"),
  file_path := "application.log" }

/-- C10 (witness): `C10_uncategorized_silently_dropped` at the empty
store and the concrete uncategorizable record. -/
theorem C10_uncategorized_silently_dropped_witness :
    addLog (freshAcc []) c10log "2025_W27" "t" = freshAcc [] :=
  C10_uncategorized_silently_dropped (freshAcc []) c10log "2025_W27" "t"
    rfl rfl rfl
